import Mathlib

/-!
Verification of the meetkaart dashboard (`src/app2.py`): a shallow
embedding of its data model and pipeline functions, with theorems about
the color classifier, the per-year filter/jitter preparation, the
sampling bound, the year dropdown, and the popup construction.

Conventions of the embedding:
* a pandas `DataFrame` is a `List` of row structures;
* machine floats are modelled as `ℚ` (the program only compares and adds);
* `NaT` / `NaN` cells are `Option.none`;
* the numpy seeded generator is modelled as a deterministic stream of
  rational draws indexed by seed and draw counter (determinism and the
  one-draw-per-call advancement are the contract the program relies on;
  the concrete stream values stand in for the opaque external ones);
* a Python exception is `Option.none` in the result of the function that
  raises it.
-/

namespace Meetkaart

/-- A parsed calendar date (the payload of a non-`NaT` `Datum` cell). -/
structure Kalenderdatum where
  year : Int
  month : Nat
  day : Nat
deriving DecidableEq, Repr

/-- A raw `Datum` cell as read from the spreadsheet: either a parseable
date or an unparseable value. -/
inductive DateCell where
  | valid (d : Kalenderdatum)
  | invalid
deriving DecidableEq, Repr

/-- Coercing date parse (`pd.to_datetime(_, errors="coerce")`) on one
cell: an unparseable
value becomes the missing marker `none` instead of an error. -/
def to_datetime_coerce : DateCell → Option Kalenderdatum
  | DateCell.valid d => some d
  | DateCell.invalid => none

/-- One raw spreadsheet row before `load_data` processes it. -/
structure RawRow where
  Straat : String
  Huisnummer : String
  Postcode : String
  Woonplaats : String
  Datum : DateCell
  RuwRes : ℚ
deriving DecidableEq, Repr

/-- One in-memory dataset row after loading: `Datum` parsed (missing if
unparseable) and `Jaar` derived from `Datum` (missing if `Datum` is). -/
structure Row where
  Straat : String
  Huisnummer : String
  Postcode : String
  Woonplaats : String
  Datum : Option Kalenderdatum
  Jaar : Option Int
  RuwRes : ℚ
deriving DecidableEq, Repr

/-- One row of `load_data`: parse the date with coercion, derive the year
(`df["Jaar"] = df["Datum"].dt.year`, `none` on a missing date). -/
def loadRow (r : RawRow) : Row :=
  { Straat := r.Straat
    Huisnummer := r.Huisnummer
    Postcode := r.Postcode
    Woonplaats := r.Woonplaats
    Datum := to_datetime_coerce r.Datum
    Jaar := (to_datetime_coerce r.Datum).map (fun d => d.year)
    RuwRes := r.RuwRes }

/-- The loader `load_data`: read the table and add the parsed `Datum` and derived
`Jaar` columns.  Total: malformed date cells never abort the load. -/
def load_data (rows : List RawRow) : List Row :=
  rows.map loadRow

/-- The fixed town → (latitude, longitude) table `TOWN_COORDS`. -/
def TOWN_COORDS : String → Option (ℚ × ℚ)
  | "Utrecht" => some (520907/10000, 51214/10000)
  | "Amersfoort" => some (521561/10000, 53878/10000)
  | "Veenendaal" => some (520286/10000, 55589/10000)
  | "Lelystad" => some (525185/10000, 54714/10000)
  | "Almere" => some (523508/10000, 52647/10000)
  | "Dronten" => some (525250/10000, 57181/10000)
  | "Arnhem" => some (519851/10000, 58987/10000)
  | "Nijmegen" => some (518126/10000, 58372/10000)
  | "Apeldoorn" => some (522112/10000, 59699/10000)
  | "Zwolle" => some (525168/10000, 60830/10000)
  | "Enschede" => some (522215/10000, 68937/10000)
  | "Deventer" => some (522550/10000, 61639/10000)
  | "Leeuwarden" => some (532012/10000, 57999/10000)
  | "Sneek" => some (530323/10000, 56589/10000)
  | "Drachten" => some (531123/10000, 60989/10000)
  | _ => none

/-- Severity color `kleur_op_basis_van_meetwaarde` from the `Ruw.Res.`
value. -/
def kleur_op_basis_van_meetwaarde (waarde : ℚ) : String :=
  if waarde < 1 then "green"
  else if waarde < 10 then "yellow"
  else if waarde < 50 then "orange"
  else "red"

/-- The 64-bit LCG step: the pseudo-random word stream underlying the model
of the external seeded generator. -/
def lcg (s : Nat) : Nat :=
  (6364136223846793005 * s + 1442695040888963407) % 18446744073709551616

/-- Model of the external numpy seeded Gaussian stream: draw number `idx`
of the generator seeded with `seed`, as a rational in [-2, 2].  The
program relies only on the stream being a deterministic function of the
seed and the draw index, which this model provides; the concrete values
stand in for the opaque external ones. -/
def gaussDraw (seed idx : Nat) : ℚ :=
  (((lcg^[idx + 1] (lcg (seed + 1))) % 8001 : Nat) : ℚ) / 2000 - 2

/-- State of a seeded generator: its seed and how many draws were made. -/
structure RNG where
  seed : Nat
  counter : Nat
deriving DecidableEq, Repr

/-- A fresh generator at draw 0: `np.random.default_rng(seed)`. -/
def default_rng (seed : Nat) : RNG := ⟨seed, 0⟩

/-- One draw `rng.normal(0, sigma)`, advancing the generator by one. -/
def RNG.normal (g : RNG) (sigma : ℚ) : ℚ × RNG :=
  (sigma * gaussDraw g.seed g.counter, ⟨g.seed, g.counter + 1⟩)

/-- The `for _, row in df_jaar.iterrows()` loop of `prepare_data`: for
each row, the town base coordinate plus one latitude draw (σ = 0.004)
then one longitude draw (σ = 0.006), threading the generator. -/
def jitter_lat_lon (g : RNG) : List Row → List (ℚ × ℚ)
  | [] => []
  | r :: rs =>
    let base := (TOWN_COORDS r.Woonplaats).getD (0, 0)
    let p1 := g.normal (4/1000)
    let p2 := p1.2.normal (6/1000)
    (base.1 + p1.1, base.2 + p2.1) :: jitter_lat_lon p2.2 rs

/-- A prepared row: a dataset row with the jittered `lat`/`lon` columns. -/
structure PRow extends Row where
  lat : ℚ
  lon : ℚ
deriving DecidableEq, Repr

/-- The per-year preparation `prepare_data`: keep the rows of the chosen year, then those whose
town is in `TOWN_COORDS`, reseed a generator with the fixed seed 42, and
attach a jittered coordinate pair to each surviving row.  The final
Python statement `df_jaar["lat"], df_jaar["lon"] = zip(*lat_lon)`
unpacks `zip(*[])` into two names when no row survives, which raises
`ValueError`; that exceptional exit is the `none` result. -/
def prepare_data (df : List Row) (jaar : Int) : Option (List PRow) :=
  let df2 := (df.filter (fun r => r.Jaar == some jaar)).filter
      (fun r => (TOWN_COORDS r.Woonplaats).isSome)
  let lat_lon := jitter_lat_lon (default_rng 42) df2
  if df2.isEmpty then none
  else some (List.zipWith (fun r p => (⟨r, p.1, p.2⟩ : PRow)) df2 lat_lon)

/-- Variant of `prepare_data` with the ambient random state threaded explicitly:
the body builds its own generator from the fixed seed 42 (line 66 of the
source) and never reads or advances the ambient one, so the ambient
state is returned untouched. -/
def prepare_data_rng (g : RNG) (df : List Row) (jaar : Int) :
    Option (List PRow) × RNG :=
  let df2 := (df.filter (fun r => r.Jaar == some jaar)).filter
      (fun r => (TOWN_COORDS r.Woonplaats).isSome)
  let rng := default_rng 42
  let lat_lon := jitter_lat_lon rng df2
  if df2.isEmpty then (none, g)
  else (some (List.zipWith (fun r p => (⟨r, p.1, p.2⟩ : PRow)) df2 lat_lon), g)

/-- The statement-level view of `prepare_data` with the caller's `df`
slot made explicit: line 63 copies (`.copy()`), so every later column
write hits only the local copy and the caller's `df` is returned as it
came in. -/
def prepare_data_frame (df : List Row) (jaar : Int) :
    Option (List PRow) × List Row :=
  let df_jaar := (df.filter (fun r => r.Jaar == some jaar)).map id
  let df_jaar2 := df_jaar.filter (fun r => (TOWN_COORDS r.Woonplaats).isSome)
  let lat_lon := jitter_lat_lon (default_rng 42) df_jaar2
  if df_jaar2.isEmpty then (none, df)
  else (some (List.zipWith (fun r p => (⟨r, p.1, p.2⟩ : PRow)) df_jaar2 lat_lon), df)

/-- Two rows in Utrecht and one in the unknown town "Mars", all dated in
2020: the scenario dataset of the spec. -/
def utrechtRij1 : Row :=
  ⟨"Domstraat", "1", "3512JA", "Utrecht", some ⟨2020, 5, 1⟩, some 2020, 1/2⟩

def utrechtRij2 : Row :=
  ⟨"Oudegracht", "7", "3511AB", "Utrecht", some ⟨2020, 6, 2⟩, some 2020, 15⟩

def marsRij : Row :=
  ⟨"Kraterweg", "3", "0000XX", "Mars", some ⟨2020, 7, 3⟩, some 2020, 50⟩

def demoDf : List Row := [utrechtRij1, marsRij, utrechtRij2]

/-- The prepared rows used in witnesses: `prepare_data` on the scenario
dataset for 2020 (the two Utrecht rows, jittered). -/
def demoOut : List PRow := (prepare_data demoDf 2020).getD []

/-- Model of the seeded selection behind `df.sample(n, random_state)`:
attach a pseudo-random key to every position, order by key, keep the
first `n`.  Deterministic in the seed, a permutation when `n` is the
full length, always a selection of input rows. -/
def dfSample (seed n : Nat) (l : List α) : List α :=
  (((((List.range l.length).zip l).map
      (fun p => (lcg (seed + 1000003 * p.1), p.2))).insertionSort
    (fun a b => a.1 ≤ b.1)).map Prod.snd).take n

/-- The sample cap: `sample_size = min(2000, len(df_jaar))`. -/
def sample_size (df_jaar : List PRow) : Nat := min 2000 df_jaar.length

/-- The rendered sample: `sample_df = df_jaar.sample(n=sample_size, random_state=42)`. -/
def sample_df (df_jaar : List PRow) : List PRow :=
  dfSample 42 (sample_size df_jaar) df_jaar

/-- The dropdown values `jaren = sorted(df["Jaar"].dropna().unique())`: the distinct
non-missing years, ascending. -/
def jaren (df : List Row) : List Int :=
  List.insertionSort (· ≤ ·) (df.filterMap Row.Jaar).dedup

/-- The year selector `st.selectbox(..., jaren, index=len(jaren)-1)`: the default
selection is the last entry of `jaren`. -/
def gekozen_jaar_default (df : List Row) : Option Int := (jaren df).getLast?

/-- The popup text of one sampled row, built from the display columns
and `pd.to_datetime(row.get('Datum')).date()`: with a missing date
there is no calendar date to format. -/
def popup_html (p : PRow) : Option String :=
  match p.toRow.Datum with
  | none => none
  | some d =>
    some (p.toRow.Straat ++ " " ++ p.toRow.Huisnummer ++ ", " ++
      p.toRow.Postcode ++ " " ++ p.toRow.Woonplaats ++ ", Datum: " ++
      toString d.year ++ "-" ++ toString d.month ++ "-" ++ toString d.day ++
      ", Ruw.Res.: " ++ toString p.toRow.RuwRes)

/-- Placeholder row for positional lookups (`List.getD`). -/
def rZero : Row := ⟨"", "", "", "", none, none, 0⟩

/-- Placeholder prepared row for positional lookups (`List.getD`). -/
def pZero : PRow := ⟨rZero, 0, 0⟩

/-- A 2019 row, to exercise the year dropdown on two distinct years. -/
def rij2019 : Row :=
  ⟨"Eemplein", "2", "3812EA", "Amersfoort", some ⟨2019, 3, 9⟩, some 2019, 7⟩

def demoDf2 : List Row := [utrechtRij1, rij2019, utrechtRij2]

/-- A raw row whose date cell parses. -/
def rawUtrecht1 : RawRow :=
  ⟨"Domstraat", "1", "3512JA", "Utrecht", DateCell.valid ⟨2020, 5, 1⟩, 1/2⟩

/-- A raw row whose date cell is unparseable. -/
def rawKapot : RawRow :=
  ⟨"Lange Gracht", "9", "3511XX", "Utrecht", DateCell.invalid, 3⟩

def rawDemo : List RawRow := [rawKapot, rawUtrecht1]

/-- The prepared output of the loaded raw demo dataset for 2020. -/
def demoOut6 : List PRow := (prepare_data (load_data rawDemo) 2020).getD []

/-- The first rendered (sampled) row of `demoOut6`. -/
def demoP9 : PRow := (sample_df demoOut6).getD 0 pZero

/-- The prepared output of the one-row dataset `[utrechtRij2]` for 2020:
the same record as position 1 of `demoOut`, now at position 0. -/
def demoOut10 : List PRow := (prepare_data [utrechtRij2] 2020).getD []

end Meetkaart

namespace Meetkaart

theorem jitter_lat_lon_length (g : RNG) (l : List Row) :
    (jitter_lat_lon g l).length = l.length := by
  induction l generalizing g with
  | nil => rfl
  | cons r rs ih => simp [jitter_lat_lon, ih]

theorem map_toRow_zipWith :
    ∀ (l : List Row) (ps : List (ℚ × ℚ)), l.length ≤ ps.length →
      (List.zipWith (fun r p => (⟨r, p.1, p.2⟩ : PRow)) l ps).map PRow.toRow = l
  | [], _, _ => rfl
  | _ :: _, [], h => by simp at h
  | r :: rs, p :: ps, h => by
    simpa using map_toRow_zipWith rs ps (by simpa using h)

theorem prepare_if_out (g : RNG) (df2 : List Row) (out : List PRow)
    (h : (if df2.isEmpty then none
          else some (List.zipWith (fun r p => (⟨r, p.1, p.2⟩ : PRow)) df2
            (jitter_lat_lon g df2))) = some out) :
    out.map PRow.toRow = df2 := by
  split at h
  · simp at h
  · injection h with h
    subst h
    exact map_toRow_zipWith df2 _ (jitter_lat_lon_length g df2).ge

theorem prepare_some_eq (df : List Row) (jaar : Int) (out : List PRow)
    (h : prepare_data df jaar = some out) :
    out = List.zipWith (fun r p => (⟨r, p.1, p.2⟩ : PRow))
      ((df.filter (fun r => r.Jaar == some jaar)).filter
        (fun r => (TOWN_COORDS r.Woonplaats).isSome))
      (jitter_lat_lon (default_rng 42)
        ((df.filter (fun r => r.Jaar == some jaar)).filter
          (fun r => (TOWN_COORDS r.Woonplaats).isSome))) := by
  simp only [prepare_data] at h
  split at h
  · exact absurd h (by simp)
  · injection h with h
    exact h.symm

theorem dfSample_length {α : Type} (seed n : Nat) (l : List α) :
    (dfSample seed n l).length = min n l.length := by
  simp only [dfSample, List.length_take, List.length_map,
    List.length_insertionSort, List.length_zip, List.length_range]
  omega

theorem dfSample_perm_of_full {α : Type} (seed : Nat) (l : List α) :
    (dfSample seed l.length l).Perm l := by
  have hlen : ((((List.range l.length).zip l).map
      (fun p => (lcg (seed + 1000003 * p.1), p.2))).insertionSort
        (fun a b => a.1 ≤ b.1)).length = l.length := by
    simp [List.length_insertionSort]
  have hperm := List.perm_insertionSort (fun a b : Nat × α => a.1 ≤ b.1)
    (((List.range l.length).zip l).map (fun p => (lcg (seed + 1000003 * p.1), p.2)))
  have h0 : dfSample seed l.length l =
      ((((List.range l.length).zip l).map
        (fun p => (lcg (seed + 1000003 * p.1), p.2))).insertionSort
          (fun a b => a.1 ≤ b.1)).map Prod.snd := by
    simp only [dfSample]
    exact List.take_of_length_le (by simp [hlen])
  have h3 : (((List.range l.length).zip l).map
      (fun p => (lcg (seed + 1000003 * p.1), p.2))).map Prod.snd = l := by
    rw [List.map_map]
    exact List.map_snd_zip _ _ (by simp)
  rw [h0]
  have h4 : ((((List.range l.length).zip l).map
      (fun p => (lcg (seed + 1000003 * p.1), p.2))).map Prod.snd).Perm l := by
    rw [h3]
  exact (hperm.map Prod.snd).trans h4

theorem dfSample_subset {α : Type} (seed n : Nat) (l : List α) (p : α)
    (hp : p ∈ dfSample seed n l) : p ∈ l := by
  have h1 : p ∈ ((((List.range l.length).zip l).map
      (fun q => (lcg (seed + 1000003 * q.1), q.2))).insertionSort
        (fun a b => a.1 ≤ b.1)).map Prod.snd := List.mem_of_mem_take hp
  obtain ⟨pr, hpr, hsnd⟩ := List.mem_map.mp h1
  have h2 : pr ∈ ((List.range l.length).zip l).map
      (fun q => (lcg (seed + 1000003 * q.1), q.2)) :=
    (List.mem_insertionSort _).mp hpr
  obtain ⟨q, hq, hfq⟩ := List.mem_map.mp h2
  have : q.2 ∈ l := (List.of_mem_zip hq).2
  rw [← hsnd, ← hfq]
  exact this

theorem sorted_getLast_max (l : List Int) (hs : l.Sorted (· ≤ ·)) :
    ∀ d, l.getLast? = some d → ∀ y ∈ l, y ≤ d := by
  induction l with
  | nil => intro d hd; simp at hd
  | cons a t ih =>
    intro d hd y hy
    cases t with
    | nil =>
      simp only [List.getLast?_singleton, Option.some.injEq] at hd
      simp only [List.mem_singleton] at hy
      omega
    | cons b t' =>
      have hd' : (b :: t').getLast? = some d := by
        simpa [List.getLast?_cons_cons] using hd
      rcases List.mem_cons.mp hy with rfl | hyt
      · exact List.rel_of_sorted_cons hs d (List.mem_of_getLast?_eq_some hd')
      · exact ih hs.of_cons d hd' y hyt

theorem zipWith_getD (l1 : List Row) (l2 : List (ℚ × ℚ)) (i : Nat)
    (h1 : i < l1.length) (h2 : i < l2.length) :
    (List.zipWith (fun r p => (⟨r, p.1, p.2⟩ : PRow)) l1 l2).getD i pZero =
      ⟨l1.getD i rZero, (l2.getD i (0, 0)).1, (l2.getD i (0, 0)).2⟩ := by
  induction l1 generalizing l2 i with
  | nil => simp at h1
  | cons a t ih =>
    cases l2 with
    | nil => simp at h2
    | cons b s =>
      cases i with
      | zero => simp
      | succ n => simpa using ih s n (by simpa using h1) (by simpa using h2)

theorem jitter_lat_lon_getD (g : RNG) (l : List Row) (i : Nat) (h : i < l.length) :
    (jitter_lat_lon g l).getD i (0, 0) =
      (((TOWN_COORDS (l.getD i rZero).Woonplaats).getD (0, 0)).1
          + (4/1000) * gaussDraw g.seed (g.counter + 2 * i),
       ((TOWN_COORDS (l.getD i rZero).Woonplaats).getD (0, 0)).2
          + (6/1000) * gaussDraw g.seed (g.counter + 2 * i + 1)) := by
  induction l generalizing g i with
  | nil => simp at h
  | cons r rs ih =>
    cases i with
    | zero => simp [jitter_lat_lon, RNG.normal]
    | succ n =>
      have hn : n < rs.length := by simpa using h
      have hrec := ih (⟨g.seed, g.counter + 1 + 1⟩ : RNG) n hn
      rw [show g.counter + 1 + 1 + 2 * n = g.counter + 2 * (n + 1) from by omega]
        at hrec
      simpa [jitter_lat_lon, RNG.normal] using hrec

/-- C1: the classifier returns green below 1 (negatives included), yellow
on [1,10), orange on [10,50), red from 50 up; 1, 10 and 50 land in the
higher bucket. -/
theorem classifier_buckets (v : ℚ) :
    (v < 1 → kleur_op_basis_van_meetwaarde v = "green") ∧
    (1 ≤ v → v < 10 → kleur_op_basis_van_meetwaarde v = "yellow") ∧
    (10 ≤ v → v < 50 → kleur_op_basis_van_meetwaarde v = "orange") ∧
    (50 ≤ v → kleur_op_basis_van_meetwaarde v = "red") := by
  unfold kleur_op_basis_van_meetwaarde
  refine ⟨fun h => ?_, fun h1 h2 => ?_, fun h1 h2 => ?_, fun h => ?_⟩ <;>
    split_ifs <;> first | rfl | linarith

/-- C1 witness: the classifier at −5, 1, 10 and 50. -/
theorem classifier_buckets_witness :
    ((-5 : ℚ) < 1 ∧ kleur_op_basis_van_meetwaarde (-5) = "green") ∧
    ((1 : ℚ) ≤ 1 ∧ (1 : ℚ) < 10 ∧ kleur_op_basis_van_meetwaarde 1 = "yellow") ∧
    ((10 : ℚ) ≤ 10 ∧ (10 : ℚ) < 50 ∧ kleur_op_basis_van_meetwaarde 10 = "orange") ∧
    ((50 : ℚ) ≤ 50 ∧ kleur_op_basis_van_meetwaarde 50 = "red") :=
  ⟨⟨by norm_num, (classifier_buckets (-5)).1 (by norm_num)⟩,
   ⟨by norm_num, by norm_num, (classifier_buckets 1).2.1 (by norm_num) (by norm_num)⟩,
   ⟨by norm_num, by norm_num, (classifier_buckets 10).2.2.1 (by norm_num) (by norm_num)⟩,
   ⟨by norm_num, (classifier_buckets 50).2.2.2 (by norm_num)⟩⟩

/-- C2: whenever `prepare_data` produces output, it is exactly the rows
of the chosen year whose town is a key of `TOWN_COORDS`, each augmented
with a coordinate pair, and no unknown-town row ever appears in it. -/
theorem prepare_output_exact (df : List Row) (jaar : Int) (out : List PRow)
    (h : prepare_data df jaar = some out) :
    out.map PRow.toRow =
      (df.filter (fun r => r.Jaar == some jaar)).filter
        (fun r => (TOWN_COORDS r.Woonplaats).isSome) ∧
    ∀ p ∈ out, (TOWN_COORDS p.toRow.Woonplaats).isSome := by
  have h1 := prepare_if_out (default_rng 42) _ out h
  refine ⟨h1, fun p hp => ?_⟩
  have hm : p.toRow ∈ out.map PRow.toRow := List.mem_map_of_mem _ hp
  rw [h1] at hm
  exact (List.mem_filter.mp hm).2

/-- C2 witness: the scenario dataset (two Utrecht rows, one "Mars" row,
all year 2020) prepared for 2020 returns exactly the two Utrecht rows. -/
theorem prepare_output_exact_witness :
    prepare_data demoDf 2020 = some demoOut ∧
    (demoOut.map PRow.toRow =
      (demoDf.filter (fun r => r.Jaar == some (2020 : Int))).filter
        (fun r => (TOWN_COORDS r.Woonplaats).isSome) ∧
     ∀ p ∈ demoOut, (TOWN_COORDS p.toRow.Woonplaats).isSome) :=
  ⟨rfl, prepare_output_exact demoDf 2020 demoOut rfl⟩

/-- C3: `prepare_data` reseeds its generator with the fixed seed 42 on
every invocation, so its result is independent of the ambient random
state, and invoking it twice in sequence on the same dataset and year
yields identical row sets and bit-identical jittered coordinates. -/
theorem prepare_data_deterministic (g₁ g₂ : RNG) (df : List Row) (jaar : Int) :
    (prepare_data_rng g₁ df jaar).1 = (prepare_data_rng g₂ df jaar).1 ∧
    (prepare_data_rng (prepare_data_rng g₁ df jaar).2 df jaar).1 =
      (prepare_data_rng g₁ df jaar).1 ∧
    (prepare_data_rng g₁ df jaar).1 = prepare_data df jaar := by
  simp only [prepare_data_rng, prepare_data]
  cases hE : ((df.filter (fun r => r.Jaar == some jaar)).filter
      (fun r => (TOWN_COORDS r.Woonplaats).isSome)).isEmpty <;> simp

/-- C4 (code bug): when zero rows survive the year-and-known-town
filter the pipeline does not return an empty prepared set — the final
statement of `prepare_data` unpacks `zip(*[])` into two names, which
raises `ValueError`; here, the error exit of the embedding, evaluated at
a dataset whose only 2020 row lies in the unknown town "Mars". -/
theorem prepare_empty_raises : prepare_data [marsRij] 2020 = none := by decide

/-- C8: `prepare_data` never mutates its input dataset: line 63 filters
into a fresh copy, so in the statement-level embedding with the caller's
`df` slot explicit, `df` comes back exactly as it went in while the
result agrees with `prepare_data`. -/
theorem prepare_data_no_mutation (df : List Row) (jaar : Int) :
    (prepare_data_frame df jaar).2 = df ∧
    (prepare_data_frame df jaar).1 = prepare_data df jaar := by
  simp only [prepare_data_frame, prepare_data, List.map_id]
  cases hE : ((df.filter (fun r => r.Jaar == some jaar)).filter
      (fun r => (TOWN_COORDS r.Woonplaats).isSome)).isEmpty <;> simp

/-- C5: the number of rows rendered is `min 2000 n` for a prepared set
of `n` rows — a seeded, deterministic selection that is the full set
(as a permutation) whenever `n ≤ 2000` and exactly 2000 rows otherwise. -/
theorem sample_size_bound (df_jaar : List PRow) :
    (sample_df df_jaar).length = min 2000 df_jaar.length ∧
    (df_jaar.length ≤ 2000 → (sample_df df_jaar).Perm df_jaar) := by
  constructor
  · rw [sample_df, dfSample_length, sample_size]
    omega
  · intro hle
    have hsz : sample_size df_jaar = df_jaar.length := by
      rw [sample_size]; omega
    rw [sample_df, hsz]
    exact dfSample_perm_of_full 42 df_jaar

/-- C5 witness: on the two prepared scenario rows the sample is both of
them. -/
theorem sample_size_bound_witness :
    demoOut.length ≤ 2000 ∧
    (sample_df demoOut).length = min 2000 demoOut.length ∧
    (sample_df demoOut).Perm demoOut :=
  ⟨by decide, (sample_size_bound demoOut).1, (sample_size_bound demoOut).2 (by decide)⟩

/-- C6: an unparseable date cell is coerced to the explicit missing
marker (the per-row load is total, so the load does not fail), the
derived year of such a row is missing, and a missing-year row is
excluded from the prepared output of every target year. -/
theorem missing_dates_excluded :
    (∀ r : RawRow, r.Datum = DateCell.invalid →
      (loadRow r).Datum = none ∧ (loadRow r).Jaar = none) ∧
    (∀ (df : List Row) (r : Row), r.Jaar = none →
      ∀ (jaar : Int) (out : List PRow), prepare_data df jaar = some out →
        r ∉ out.map PRow.toRow) := by
  constructor
  · intro r hr
    simp [loadRow, hr, to_datetime_coerce]
  · intro df r hr jaar out h hmem
    have h1 := prepare_if_out (default_rng 42) _ out h
    rw [h1] at hmem
    have h2 : (r.Jaar == some jaar) = true :=
      (List.mem_filter.mp (List.mem_filter.mp hmem).1).2
    rw [hr] at h2
    exact absurd h2 (by simp)

/-- C6 witness: the raw row with the broken date cell loads with a
missing date and year, and is absent from the 2020 output prepared from
the loaded demo dataset. -/
theorem missing_dates_excluded_witness :
    (rawKapot.Datum = DateCell.invalid ∧
      (loadRow rawKapot).Datum = none ∧ (loadRow rawKapot).Jaar = none) ∧
    ((loadRow rawKapot).Jaar = none ∧
      prepare_data (load_data rawDemo) 2020 = some demoOut6 ∧
      loadRow rawKapot ∉ demoOut6.map PRow.toRow) :=
  ⟨⟨rfl, missing_dates_excluded.1 rawKapot rfl⟩,
   ⟨rfl, rfl,
    missing_dates_excluded.2 (load_data rawDemo) (loadRow rawKapot) rfl 2020
      demoOut6 rfl⟩⟩

/-- C7: the dropdown `jaren` holds exactly the distinct non-missing
years of the dataset, ascending and without duplicates, and the default
selection (the last entry) is the largest year offered. -/
theorem jaren_dropdown (df : List Row) :
    (∀ y : Int, y ∈ jaren df ↔ some y ∈ df.map Row.Jaar) ∧
    (jaren df).Sorted (· ≤ ·) ∧
    (jaren df).Nodup ∧
    (∀ d, gekozen_jaar_default df = some d → ∀ y ∈ jaren df, y ≤ d) := by
  refine ⟨fun y => ?_, ?_, ?_, ?_⟩
  · simp [jaren, List.mem_insertionSort, List.mem_dedup, List.mem_filterMap,
      List.mem_map, eq_comm]
  · exact List.sorted_insertionSort (· ≤ ·) (df.filterMap Row.Jaar).dedup
  · exact (List.perm_insertionSort (· ≤ ·) _).nodup_iff.mpr
      (List.nodup_dedup _)
  · intro d hd y hy
    exact sorted_getLast_max (jaren df)
      (List.sorted_insertionSort (· ≤ ·) (df.filterMap Row.Jaar).dedup) d hd y hy

/-- C7 witness: on the demo dataset with years 2020 and 2019 the
dropdown is the sorted pair and the default is 2020. -/
theorem jaren_dropdown_witness :
    ((2019 : Int) ∈ jaren demoDf2 ↔ some (2019 : Int) ∈ demoDf2.map Row.Jaar) ∧
    (jaren demoDf2).Sorted (· ≤ ·) ∧
    (jaren demoDf2).Nodup ∧
    (gekozen_jaar_default demoDf2 = some 2020 ∧
      ∀ y ∈ jaren demoDf2, y ≤ 2020) :=
  ⟨(jaren_dropdown demoDf2).1 2019, (jaren_dropdown demoDf2).2.1,
   (jaren_dropdown demoDf2).2.2.1,
   ⟨by decide, fun y hy => (jaren_dropdown demoDf2).2.2.2 2020 (by decide) y hy⟩⟩

/-- C9: every row prepared from loaded data has a non-missing parsed
date — its derived year equals the integer target, which a missing date
cannot produce — so the popup construction of every rendered (sampled)
marker has a calendar date to convert. -/
theorem popup_date_present (rows : List RawRow) (jaar : Int) (out : List PRow)
    (h : prepare_data (load_data rows) jaar = some out) :
    ∀ p ∈ sample_df out, p.toRow.Datum.isSome ∧ (popup_html p).isSome := by
  intro p hp
  have hpo : p ∈ out := dfSample_subset 42 (sample_size out) out p hp
  have h1 := prepare_if_out (default_rng 42) _ out h
  have hm : p.toRow ∈ out.map PRow.toRow := List.mem_map_of_mem _ hpo
  rw [h1] at hm
  have hin : p.toRow ∈ (load_data rows).filter (fun r => r.Jaar == some jaar) :=
    (List.mem_filter.mp hm).1
  have hjaar : p.toRow.Jaar = some jaar := by
    have := (List.mem_filter.mp hin).2
    simpa using this
  obtain ⟨raw, _, hload⟩ := List.mem_map.mp (List.mem_filter.mp hin).1
  have hDatum : p.toRow.Datum = (to_datetime_coerce raw.Datum) := by
    rw [← hload]
    rfl
  have hJ : (to_datetime_coerce raw.Datum).map (fun d => d.year) = some jaar := by
    rw [← hjaar, ← hload]
    rfl
  obtain ⟨d, hd, _⟩ := Option.map_eq_some'.mp hJ
  have hsome : p.toRow.Datum = some d := by rw [hDatum, hd]
  refine ⟨by simp [hsome], ?_⟩
  simp [popup_html, hsome]

/-- C9 witness: the single rendered row of the loaded demo dataset for
2020 has a present date and a popup. -/
theorem popup_date_present_witness :
    prepare_data (load_data rawDemo) 2020 = some demoOut6 ∧
    demoP9 ∈ sample_df demoOut6 ∧
    (demoP9.toRow.Datum.isSome ∧ (popup_html demoP9).isSome) := by
  have hlen : 0 < (sample_df demoOut6).length := by decide
  have hmem : demoP9 ∈ sample_df demoOut6 := by
    have h0 : demoP9 = (sample_df demoOut6).getD 0 pZero := rfl
    rw [h0, List.getD_eq_getElem (sample_df demoOut6) pZero hlen]
    exact List.getElem_mem hlen
  exact ⟨rfl, hmem, popup_date_present rawDemo 2020 demoOut6 rfl demoP9 hmem⟩

/-- C10: the jitter of the i-th prepared row is its town base coordinate
plus the (2i)-th (latitude, σ = 0.004) and (2i+1)-th (longitude,
σ = 0.006) draws of the fixed-seed stream — it depends on the row's
position, not the row alone: concretely, the Utrecht record that sits at
position 1 of the two-row 2020 output receives a different latitude than
the same record prepared alone at position 0. -/
theorem jitter_position_dependent :
    (∀ (df : List Row) (jaar : Int) (out : List PRow),
      prepare_data df jaar = some out → ∀ i : Nat, i < out.length →
        (out.getD i pZero).lat =
          ((TOWN_COORDS (out.getD i pZero).toRow.Woonplaats).getD (0, 0)).1
            + (4/1000) * gaussDraw 42 (2 * i) ∧
        (out.getD i pZero).lon =
          ((TOWN_COORDS (out.getD i pZero).toRow.Woonplaats).getD (0, 0)).2
            + (6/1000) * gaussDraw 42 (2 * i + 1)) ∧
    ((demoOut.getD 1 pZero).toRow = (demoOut10.getD 0 pZero).toRow ∧
      (demoOut.getD 1 pZero).lat ≠ (demoOut10.getD 0 pZero).lat) := by
  have H : ∀ (df : List Row) (jaar : Int) (out : List PRow),
      prepare_data df jaar = some out → ∀ i : Nat, i < out.length →
        (out.getD i pZero).lat =
          ((TOWN_COORDS (out.getD i pZero).toRow.Woonplaats).getD (0, 0)).1
            + (4/1000) * gaussDraw 42 (2 * i) ∧
        (out.getD i pZero).lon =
          ((TOWN_COORDS (out.getD i pZero).toRow.Woonplaats).getD (0, 0)).2
            + (6/1000) * gaussDraw 42 (2 * i + 1) := by
    intro df jaar out h i hi
    have hout := prepare_some_eq df jaar out h
    subst hout
    have hlen : i < ((df.filter (fun r => r.Jaar == some jaar)).filter
        (fun r => (TOWN_COORDS r.Woonplaats).isSome)).length := by
      simpa [List.length_zipWith, jitter_lat_lon_length] using hi
    rw [zipWith_getD _ _ i hlen (by rw [jitter_lat_lon_length]; exact hlen)]
    rw [jitter_lat_lon_getD (default_rng 42) _ i hlen]
    simp [default_rng]
  have htr : (demoOut.getD 1 pZero).toRow = (demoOut10.getD 0 pZero).toRow := by
    decide
  refine ⟨H, htr, ?_⟩
  have h1 := (H demoDf 2020 demoOut rfl 1 (by decide)).1
  have h0 := (H [utrechtRij2] 2020 demoOut10 rfl 0 (by decide)).1
  rw [h1, h0, htr]
  intro heq
  have hc := mul_left_cancel₀ (by norm_num : (4/1000 : ℚ) ≠ 0)
    (add_left_cancel heq)
  have hq : ((lcg^[2 * 1 + 1] (lcg (42 + 1)) % 8001 : Nat) : ℚ) =
      ((lcg^[2 * 0 + 1] (lcg (42 + 1)) % 8001 : Nat) : ℚ) := by
    unfold gaussDraw at hc
    linarith
  have hn : (lcg^[2 * 1 + 1] (lcg (42 + 1)) % 8001 : Nat) =
      (lcg^[2 * 0 + 1] (lcg (42 + 1)) % 8001 : Nat) := Nat.cast_inj.mp hq
  exact absurd hn (by decide)

/-- C10 witness: the first prepared scenario row carries draws 0 and 1
of the seed-42 stream. -/
theorem jitter_position_dependent_witness :
    prepare_data demoDf 2020 = some demoOut ∧ 0 < demoOut.length ∧
    ((demoOut.getD 0 pZero).lat =
        ((TOWN_COORDS (demoOut.getD 0 pZero).toRow.Woonplaats).getD (0, 0)).1
          + (4/1000) * gaussDraw 42 (2 * 0) ∧
     (demoOut.getD 0 pZero).lon =
        ((TOWN_COORDS (demoOut.getD 0 pZero).toRow.Woonplaats).getD (0, 0)).2
          + (6/1000) * gaussDraw 42 (2 * 0 + 1)) :=
  ⟨rfl, by decide,
   jitter_position_dependent.1 demoDf 2020 demoOut rfl 0 (by decide)⟩

end Meetkaart
